import Mathlib

/-!
  # Verification of the node-warc streaming WARC parser

  Shallow embedding of src/lib/parsers/warcParser.js: the line-driven
  state machine that detects WARC record boundaries, classifies the
  record type, delegates accumulation to a record builder, and emits
  lifecycle notifications.

  The parser instance state mirrors the JS object fields together with
  the per-session local variables of start() (lastBegin, buildKey),
  which are fresh closure variables on each call to start. Line buffers
  are modelled as strings with exact equality, matching Buffer.equals.

  The modules fieldIdentifiers.js and warcRecordBuilder.js are external
  collaborators not present in the sources; they are modelled from the
  specification (sections 3 and 4.2) and marked as such.
-/

namespace NodeWarc

/- Modelled from the spec: the SentinelTable of fieldIdentifiers.js,
a fixed set of recognized byte sequences compared by exact equality.
The begin sentinel is the WARC/1.0 line, empty the blank line, and the
five type sentinels the WARC-Type header lines of the five supported
record types. Only their pairwise distinctness matters to the parser. -/
namespace warcFieldIdentifiers

def begin : String := "WARC/1.0"

def empty : String := ""

def req : String := "WARC-Type: request"

def res : String := "WARC-Type: response"

def revisit : String := "WARC-Type: revisit"

def info : String := "WARC-Type: warcinfo"

def mdata : String := "WARC-Type: metadata"

end warcFieldIdentifiers

/-- The record type tag of a completed record. -/
inductive RecType where
  | request
  | response
  | revisit
  | info
  | metadata
  | unknown
deriving DecidableEq, Repr

/-- The output value type: a completed WARC record. -/
structure RecordModel where
  rtype : RecType
  headers : List (String × String)
  payload : List String
deriving DecidableEq, Repr

/-- Modelled from the spec: the per-record accumulation sub-state of
warcRecordBuilder.js, allocated by an init operation and addressed by
an opaque key. -/
structure RecordAccum where
  rtype : RecType
  headerLines : List String
  payloadLines : List String
deriving DecidableEq, Repr

/-- Modelled from the spec: the blank-line threshold after which lines
belong to the payload section; request, response and revisit records
carry an embedded HTTP message with its own separator, info and
metadata records have a single-separator layout. -/
def threshold : RecType → Nat
  | RecType.request => 2
  | RecType.response => 2
  | RecType.revisit => 2
  | RecType.info => 1
  | RecType.metadata => 1
  | RecType.unknown => 1

/-- Modelled from the spec: the WARCRecorderBuilder state, a table of
in-progress records addressed by opaque keys handed out by the init
operations. -/
structure WARCRecorderBuilder where
  nextKey : Nat
  records : List (Nat × RecordAccum)
deriving DecidableEq, Repr

namespace WARCRecorderBuilder

/-- A fresh builder with no accumulated state. -/
def init : WARCRecorderBuilder := ⟨0, []⟩

/-- Modelled from the spec: allocate fresh per-type sub-state, record
the begin line and the type line as the first header entries, and
return an opaque key for the in-progress record. -/
def initType (b : WARCRecorderBuilder) (t : RecType) (beginLine : Option String)
    (typeLine : String) : WARCRecorderBuilder × Nat :=
  let hs := match beginLine with
    | some s => [s, typeLine]
    | none => [typeLine]
  (⟨b.nextKey + 1, (b.nextKey, ⟨t, hs, []⟩) :: b.records⟩, b.nextKey)

def initReq (b : WARCRecorderBuilder) (beginLine : Option String) (typeLine : String) :
    WARCRecorderBuilder × Nat := b.initType RecType.request beginLine typeLine

def initRes (b : WARCRecorderBuilder) (beginLine : Option String) (typeLine : String) :
    WARCRecorderBuilder × Nat := b.initType RecType.response beginLine typeLine

def initRevist (b : WARCRecorderBuilder) (beginLine : Option String) (typeLine : String) :
    WARCRecorderBuilder × Nat := b.initType RecType.revisit beginLine typeLine

def initInfo (b : WARCRecorderBuilder) (beginLine : Option String) (typeLine : String) :
    WARCRecorderBuilder × Nat := b.initType RecType.info beginLine typeLine

def initMdata (b : WARCRecorderBuilder) (beginLine : Option String) (typeLine : String) :
    WARCRecorderBuilder × Nat := b.initType RecType.metadata beginLine typeLine

/-- Route one accumulated line into the header or payload section of
the record identified by the key, by comparing the blank-line count
against the type-specific threshold. Modelled from the spec: a call
for an unknown or uninitialized key must not throw and degrades to a
no-op. -/
def addLineTo (b : WARCRecorderBuilder) (key : Option Nat) (blankCount : Nat)
    (line : String) : WARCRecorderBuilder :=
  match key with
  | none => b
  | some k =>
      ⟨b.nextKey, b.records.map (fun p =>
        if p.1 = k then
          (p.1,
            if blankCount < threshold p.2.rtype then
              ⟨p.2.rtype, p.2.headerLines ++ [line], p.2.payloadLines⟩
            else
              ⟨p.2.rtype, p.2.headerLines, p.2.payloadLines ++ [line]⟩)
        else p)⟩

/-- Parse one raw header line into a name and value pair by splitting
on the first colon and trimming whitespace; a line with no colon is
skipped. Modelled from the spec. -/
def parseHeaderLine (l : String) : Option (String × String) :=
  match l.splitOn ":" with
  | [] => none
  | [_] => none
  | n :: rest => some (n.trim, (String.intercalate ":" rest).trim)

def parseHeaderLines (ls : List String) : List (String × String) :=
  ls.filterMap parseHeaderLine

/-- Materialize a RecordModel from the accumulated state for the key.
Modelled from the spec: for an unknown or uninitialized key the call
degrades to an empty record of type unknown rather than failing. -/
def buildRecord (b : WARCRecorderBuilder) (key : Option Nat) : RecordModel :=
  match key.bind (fun k => b.records.lookup k) with
  | none => ⟨RecType.unknown, [], []⟩
  | some acc => ⟨acc.rtype, parseHeaderLines acc.headerLines, acc.payloadLines⟩

/-- Drop all accumulated buffers. Modelled from the spec. -/
def clear (_b : WARCRecorderBuilder) : WARCRecorderBuilder := init

end WARCRecorderBuilder

/-- The notifications emitted to the caller during a parse session. -/
inductive Event where
  | record (r : RecordModel)
  | done (r : RecordModel)
  | error (e : String)
deriving DecidableEq, Repr

/-- The value an entry point call produces: the JS functions return
true or false, fall through returning undefined, or throw. -/
inductive StartRet where
  | trueRet
  | falseRet
  | undefinedRet
  | thrown (msg : String)
deriving DecidableEq, Repr

/-- The WARCParser instance state: the object fields of warcParser.js
(wp, readStream modelled as an open flag, checkRecType, foundType,
starting, parsing, the crlf counter, the builder) together with the
session-local variables lastBegin and buildKey of start(), which are
fresh on every call to start. -/
structure WARCParser where
  wp : Option String
  readStreamOpen : Bool
  checkRecType : Bool
  foundType : Bool
  starting : Bool
  parsing : Bool
  crlfCount : Nat
  builder : WARCRecorderBuilder
  lastBegin : Option String
  buildKey : Option Nat
deriving DecidableEq, Repr

namespace WARCParser

/-- The constructor: new WARCParser(wp). -/
def mk0 (wp : Option String) : WARCParser :=
  ⟨wp, false, false, false, true, false, 0, WARCRecorderBuilder.init, none, none⟩

/-- Embedding of the private method checkType of warcParser.js lines
170 to 200: clears the type-check flag, tries the type sentinels, and
on a match calls the corresponding builder init and returns its key.
The third test replays the source faithfully: after the response test
fails, the source tests the same already-false flag again in place of
comparing against the revisit sentinel, so the revisit branch is dead
code. On no match the source only logs and falls through, returning
undefined, which is the none key here. -/
def checkType (p : WARCParser) (line : String) : WARCParser × Option Nat :=
  let p0 : WARCParser := { p with checkRecType := false, foundType := false }
  let ft1 : Bool := warcFieldIdentifiers.req = line
  if ft1 then
    let r := p0.builder.initReq p0.lastBegin line
    ({ p0 with foundType := true, builder := r.1 }, some r.2)
  else
    let ft2 : Bool := warcFieldIdentifiers.res = line
    if ft2 then
      let r := p0.builder.initRes p0.lastBegin line
      ({ p0 with foundType := true, builder := r.1 }, some r.2)
    else
      if ft2 then
        let r := p0.builder.initRevist p0.lastBegin line
        ({ p0 with foundType := true, builder := r.1 }, some r.2)
      else
        let ft3 : Bool := warcFieldIdentifiers.info = line
        if ft3 then
          let r := p0.builder.initInfo p0.lastBegin line
          ({ p0 with foundType := true, builder := r.1 }, some r.2)
        else
          let ft4 : Bool := warcFieldIdentifiers.mdata = line
          if ft4 then
            let r := p0.builder.initMdata p0.lastBegin line
            ({ p0 with foundType := true, builder := r.1 }, some r.2)
          else
            (p0, none)

/-- Embedding of the data callback of start(), warcParser.js lines 112
to 132: one step of the line-driven state machine, returning the new
state and the events emitted while processing this line. -/
def stepLine (p : WARCParser) (line : String) : WARCParser × List Event :=
  if warcFieldIdentifiers.begin = line then
    let pe : WARCParser × List Event :=
      if ¬p.starting then
        (p, [Event.record (p.builder.buildRecord p.buildKey)])
      else
        ({ p with starting := false }, [])
    ({ pe.1 with crlfCount := 0, checkRecType := true, lastBegin := some line }, pe.2)
  else
    let isEmptyLine : Bool := warcFieldIdentifiers.empty = line
    if p.checkRecType && !isEmptyLine then
      let r := p.checkType line
      ({ r.1 with buildKey := r.2 }, [])
    else
      if isEmptyLine then
        ({ p with crlfCount := p.crlfCount + 1 }, [])
      else
        ({ p with builder := p.builder.addLineTo p.buildKey p.crlfCount line }, [])

/-- Process a list of lines in order, concatenating emitted events. -/
def runLines (p : WARCParser) : List String → WARCParser × List Event
  | [] => (p, [])
  | l :: ls =>
      let r := p.stepLine l
      let r2 := runLines r.1 ls
      (r2.1, r.2 ++ r2.2)

/-- Embedding of the end callback of start(), warcParser.js lines 136
to 141: leave the parsing state, emit the final record as done,
destroy the read stream and clear the builder. -/
def onEnd (p : WARCParser) : WARCParser × List Event :=
  ({ p with parsing := false, readStreamOpen := false,
            builder := p.builder.clear },
   [Event.done (p.builder.buildRecord p.buildKey)])

/-- Embedding of the error callback of start(), warcParser.js lines
133 to 135: forward the error as an error notification; nothing else
is touched. -/
def onError (p : WARCParser) (e : String) : WARCParser × List Event :=
  (p, [Event.error e])

/-- Embedding of start(), warcParser.js lines 100 to 145: reject when
already parsing (returning false), throw when no path is configured,
otherwise enter the parsing state, open the read stream and reset the
session-local variables. The success branch of the source has no
return statement and so yields undefined. -/
def start (p : WARCParser) : StartRet × WARCParser :=
  if ¬p.parsing then
    match p.wp with
    | none => (StartRet.thrown "The path to the WARC file is undefined", p)
    | some _ =>
        (StartRet.undefinedRet,
         { p with starting := true, parsing := true, readStreamOpen := true,
                  lastBegin := none, buildKey := none })
  else
    (StartRet.falseRet, p)

/-- Embedding of parseWARC(wp), warcParser.js lines 156 to 161: when
not parsing, replace the configured path by the argument unless the
argument is falsy (null, undefined or the empty string), then defer to
start. -/
def parseWARC (wpArg : Option String) (p : WARCParser) : StartRet × WARCParser :=
  let p1 : WARCParser :=
    if ¬p.parsing then
      { p with wp := match wpArg with
                     | none => p.wp
                     | some s => if s = "" then p.wp else some s }
    else p
  start p1

/-- A complete successful session: construct a parser on a path, start
it, feed it the lines, then receive end-of-stream; the value is the
full event sequence the caller observes. -/
def sessionRun (wp : String) (lines : List String) : List Event :=
  let p0 := (start (mk0 (some wp))).2
  let r := runLines p0 lines
  r.2 ++ (onEnd r.1).2

end WARCParser

/-- Count of produced-record notifications in an event list. -/
def countRecords (evs : List Event) : Nat :=
  evs.countP (fun e => match e with | Event.record _ => true | _ => false)

/-- Count of stream-finished notifications in an event list. -/
def countDone (evs : List Event) : Nat :=
  evs.countP (fun e => match e with | Event.done _ => true | _ => false)

/-- Count of error notifications in an event list. -/
def countErrors (evs : List Event) : Nat :=
  evs.countP (fun e => match e with | Event.error _ => true | _ => false)

/-- Count of begin-sentinel lines in a line list. -/
def countBegin (ls : List String) : Nat :=
  ls.countP (fun l => warcFieldIdentifiers.begin = l)

/-- Replace only the configured path of a parser state, leaving every
other field alone; used to relate two sessions that differ only in the
path they were constructed with. -/
def WARCParser.setWp (p : WARCParser) (w : Option String) : WARCParser :=
  { p with wp := w }

/-- A parser that has just started a session on a configured path. -/
def startedParser : WARCParser :=
  (WARCParser.start (WARCParser.mk0 (some "f.warc"))).2

/-- A started parser that has consumed one begin sentinel and is
awaiting the type line of the first record. -/
def awaitingParser : WARCParser :=
  (WARCParser.runLines startedParser [warcFieldIdentifiers.begin]).1

/-- A line block: one record as it appears on the stream, a begin
sentinel followed by lines that are not begin sentinels. -/
def wellFormedBlock (b : List String) : Prop :=
  b.head? = some warcFieldIdentifiers.begin ∧
    ∀ x ∈ b.tail, warcFieldIdentifiers.begin ≠ x

instance (b : List String) : Decidable (wellFormedBlock b) := by
  unfold wellFormedBlock
  infer_instance

namespace WARCParser

theorem checkType_proj (p : WARCParser) (l : String) :
    (p.checkType l).1.starting = p.starting ∧
    (p.checkType l).1.checkRecType = false ∧
    (p.checkType l).1.parsing = p.parsing ∧
    (p.checkType l).1.crlfCount = p.crlfCount ∧
    (p.checkType l).1.wp = p.wp ∧
    (p.checkType l).1.readStreamOpen = p.readStreamOpen ∧
    (p.checkType l).1.lastBegin = p.lastBegin ∧
    (p.checkType l).1.buildKey = p.buildKey := by
  unfold checkType
  dsimp only
  repeat' split
  all_goals simp

theorem stepLine_fst_starting (p : WARCParser) (l : String) :
    (p.stepLine l).1.starting =
      if warcFieldIdentifiers.begin = l then false else p.starting := by
  unfold stepLine
  dsimp only
  by_cases hb : warcFieldIdentifiers.begin = l
  · by_cases hst : p.starting <;> simp [hb, hst]
  · simp only [hb, if_false, if_neg, not_false_iff]
    split
    · exact (checkType_proj p l).1
    · split <;> simp [hb]

theorem stepLine_snd_eq (p : WARCParser) (l : String) :
    (p.stepLine l).2 =
      if warcFieldIdentifiers.begin = l ∧ p.starting = false then
        [Event.record (p.builder.buildRecord p.buildKey)]
      else [] := by
  unfold stepLine
  dsimp only
  by_cases hb : warcFieldIdentifiers.begin = l
  · by_cases hst : p.starting <;> simp [hb, hst]
  · simp only [hb, if_false, if_neg, not_false_iff]
    split
    · simp [hb]
    · split <;> simp [hb]

theorem runLines_cons (p : WARCParser) (l : String) (ls : List String) :
    runLines p (l :: ls) =
      ((runLines (p.stepLine l).1 ls).1,
       (p.stepLine l).2 ++ (runLines (p.stepLine l).1 ls).2) := rfl

theorem runLines_snd_records (ls : List String) : ∀ (p : WARCParser),
    ∀ e ∈ (runLines p ls).2, ∃ m, e = Event.record m := by
  induction ls with
  | nil => intro p e he; simp [runLines] at he
  | cons l ls ih =>
      intro p e he
      rw [runLines_cons] at he
      rcases List.mem_append.mp he with h | h
      · rw [stepLine_snd_eq] at h
        split at h
        · simp at h
          exact ⟨_, h⟩
        · simp at h
      · exact ih _ e h

theorem countRecords_runLines (ls : List String) : ∀ (p : WARCParser),
    countRecords (runLines p ls).2 =
      if p.starting then countBegin ls - 1 else countBegin ls := by
  induction ls with
  | nil => intro p; simp [runLines, countRecords, countBegin]
  | cons l ls ih =>
      intro p
      rw [runLines_cons]
      have hcnt : countRecords ((p.stepLine l).2 ++ (runLines (p.stepLine l).1 ls).2) =
          countRecords (p.stepLine l).2 + countRecords (runLines (p.stepLine l).1 ls).2 := by
        simp [countRecords, List.countP_append]
      rw [hcnt, ih, stepLine_snd_eq, stepLine_fst_starting]
      by_cases hb : warcFieldIdentifiers.begin = l
      · cases hst : p.starting
        · simp only [hb, hst, if_true, if_false, and_true, and_false, if_pos]
          have h1 : countBegin (l :: ls) = countBegin ls + 1 := by
            simp [countBegin, List.countP_cons, hb]
          simp [countRecords, h1]
          omega
        · simp only [hb, hst, if_true]
          have h1 : countBegin (l :: ls) = countBegin ls + 1 := by
            simp [countBegin, List.countP_cons, hb]
          simp [countRecords, h1]
      · have h1 : countBegin (l :: ls) = countBegin ls := by
          simp [countBegin, List.countP_cons, hb]
        cases hst : p.starting <;>
          simp [hb, hst, h1, countRecords]

theorem stepLine_wp (p : WARCParser) (w : Option String) (l : String) :
    stepLine (p.setWp w) l =
      ((p.stepLine l).1.setWp w, (p.stepLine l).2) := by
  obtain ⟨wp0, rso, ck, ft, st, pg, cc, bld, lb, bk⟩ := p
  unfold setWp stepLine checkType
  dsimp only
  repeat' split
  all_goals rfl

theorem runLines_wp (ls : List String) : ∀ (p : WARCParser) (w : Option String),
    runLines (p.setWp w) ls =
      ((runLines p ls).1.setWp w, (runLines p ls).2) := by
  induction ls with
  | nil => intro p w; rfl
  | cons l ls ih =>
      intro p w
      rw [runLines_cons, runLines_cons, stepLine_wp, ih]

theorem countBegin_of_wellFormed (b : List String) (h : wellFormedBlock b) :
    countBegin b = 1 := by
  obtain ⟨hh, ht⟩ := h
  cases b with
  | nil => simp at hh
  | cons x xs =>
      simp at hh
      subst hh
      have hx : countBegin xs = 0 := by
        simp only [countBegin, List.countP_eq_zero]
        intro a ha
        simpa using ht a ha
      simp [countBegin, List.countP_cons] at hx ⊢
      exact hx

theorem countBegin_join (blocks : List (List String))
    (h : ∀ b ∈ blocks, wellFormedBlock b) :
    countBegin blocks.flatten = blocks.length := by
  induction blocks with
  | nil => simp [countBegin]
  | cons b bs ih =>
      have hb : countBegin b = 1 :=
        countBegin_of_wellFormed b (h b (List.mem_cons_self b bs))
      have hbs : countBegin bs.flatten = bs.length :=
        ih (fun x hx => h x (List.mem_cons_of_mem b hx))
      have happ : countBegin (b :: bs).flatten = countBegin b + countBegin bs.flatten := by
        simp [countBegin, List.countP_append]
      rw [happ, hb, hbs]
      simp [Nat.add_comm]

theorem countP_zero_of_records (evs : List Event)
    (h : ∀ e ∈ evs, ∃ m, e = Event.record m) :
    countDone evs = 0 ∧ countErrors evs = 0 := by
  constructor <;>
    · simp only [countDone, countErrors, List.countP_eq_zero]
      intro e he
      obtain ⟨m, rfl⟩ := h e he
      simp

end WARCParser

open WARCParser

/-- C1: the type classification of checkType is in priority order
request, response, revisit, info, metadata, but the revisit test is
dead code: the source re-tests the flag left false by the failed
response comparison instead of comparing against the revisit sentinel,
so a line equal to the revisit sentinel reaches the unknown branch and
no builder initialization occurs at all; the builder is unchanged and
no key is returned. This evaluates the embedded source at the failing
input and exhibits the divergence from the claim. -/
theorem claim1_revisit_branch_dead (p : WARCParser) :
    p.checkType warcFieldIdentifiers.revisit =
      ({ p with checkRecType := false, foundType := false }, none) := by
  have h1 : (warcFieldIdentifiers.req = warcFieldIdentifiers.revisit) = False :=
    eq_false (by decide)
  have h2 : (warcFieldIdentifiers.res = warcFieldIdentifiers.revisit) = False :=
    eq_false (by decide)
  have h3 : (warcFieldIdentifiers.info = warcFieldIdentifiers.revisit) = False :=
    eq_false (by decide)
  have h4 : (warcFieldIdentifiers.mdata = warcFieldIdentifiers.revisit) = False :=
    eq_false (by decide)
  simp [checkType, h1, h2, h3, h4]

/-- C2: a session over a stream of N well-formed record blocks emits
exactly N minus 1 produced-record notifications, all before the single
stream-finished notification that closes the event sequence, and no
other notifications. -/
theorem claim2_record_and_done_counts (wp : String) (blocks : List (List String))
    (hne : blocks ≠ [])
    (hwf : ∀ b ∈ blocks, wellFormedBlock b) :
    ∃ evs r, sessionRun wp blocks.flatten = evs ++ [Event.done r] ∧
      countRecords evs = blocks.length - 1 ∧
      (∀ e ∈ evs, ∃ m, e = Event.record m) ∧
      countDone (sessionRun wp blocks.flatten) = 1 ∧
      countErrors (sessionRun wp blocks.flatten) = 0 := by
  have hrec : ∀ e ∈ (runLines (start (mk0 (some wp))).2 blocks.flatten).2,
      ∃ m, e = Event.record m := runLines_snd_records _ _
  refine ⟨(runLines (start (mk0 (some wp))).2 blocks.flatten).2,
    (runLines (start (mk0 (some wp))).2 blocks.flatten).1.builder.buildRecord
      (runLines (start (mk0 (some wp))).2 blocks.flatten).1.buildKey,
    rfl, ?_, hrec, ?_, ?_⟩
  · rw [countRecords_runLines]
    have hs : (start (mk0 (some wp))).2.starting = true := rfl
    rw [hs, if_pos rfl, countBegin_join blocks hwf]
  · have hform : sessionRun wp blocks.flatten =
        (runLines (start (mk0 (some wp))).2 blocks.flatten).2 ++
          [Event.done ((runLines (start (mk0 (some wp))).2 blocks.flatten).1.builder.buildRecord
            (runLines (start (mk0 (some wp))).2 blocks.flatten).1.buildKey)] := rfl
    rw [hform]
    simp [countDone, List.countP_append, List.countP_eq_zero]
    intro e he
    obtain ⟨m, rfl⟩ := hrec e he
    simp
  · have hform : sessionRun wp blocks.flatten =
        (runLines (start (mk0 (some wp))).2 blocks.flatten).2 ++
          [Event.done ((runLines (start (mk0 (some wp))).2 blocks.flatten).1.builder.buildRecord
            (runLines (start (mk0 (some wp))).2 blocks.flatten).1.buildKey)] := rfl
    rw [hform]
    simp [countErrors, List.countP_append, List.countP_eq_zero]
    intro e he
    obtain ⟨m, rfl⟩ := hrec e he
    simp

/-- Witness for C2: a two-record stream, warcinfo then metadata,
yields one produced notification followed by one stream-finished
notification and nothing else. -/
theorem claim2_witness :
    ∃ evs r, sessionRun "f.warc"
        [[warcFieldIdentifiers.begin, warcFieldIdentifiers.info],
         [warcFieldIdentifiers.begin, warcFieldIdentifiers.mdata]].flatten =
        evs ++ [Event.done r] ∧
      countRecords evs = 2 - 1 ∧
      (∀ e ∈ evs, ∃ m, e = Event.record m) ∧
      countDone (sessionRun "f.warc"
        [[warcFieldIdentifiers.begin, warcFieldIdentifiers.info],
         [warcFieldIdentifiers.begin, warcFieldIdentifiers.mdata]].flatten) = 1 ∧
      countErrors (sessionRun "f.warc"
        [[warcFieldIdentifiers.begin, warcFieldIdentifiers.info],
         [warcFieldIdentifiers.begin, warcFieldIdentifiers.mdata]].flatten) = 0 :=
  claim2_record_and_done_counts "f.warc"
    [[warcFieldIdentifiers.begin, warcFieldIdentifiers.info],
     [warcFieldIdentifiers.begin, warcFieldIdentifiers.mdata]]
    (by decide) (by decide)

/-- C3: when the awaited type line matches none of the five sentinels,
the step emits nothing (in particular no error notification), only
clears the type-check flag and overwrites the build key with none; the
degraded record built from the none key is the empty unknown record no
matter what the builder has accumulated, and the next begin sentinel
emits exactly that degraded record and re-enters the awaiting-type
state, so parsing continues. -/
theorem claim3_unknown_type_degrades (p : WARCParser) (line : String)
    (hck : p.checkRecType = true) (hst : p.starting = false)
    (hb : warcFieldIdentifiers.begin ≠ line)
    (he : warcFieldIdentifiers.empty ≠ line)
    (h1 : warcFieldIdentifiers.req ≠ line)
    (h2 : warcFieldIdentifiers.res ≠ line)
    (h3 : warcFieldIdentifiers.revisit ≠ line)
    (h4 : warcFieldIdentifiers.info ≠ line)
    (h5 : warcFieldIdentifiers.mdata ≠ line) :
    p.stepLine line =
      ({ p with checkRecType := false, foundType := false, buildKey := none },
       ([] : List Event)) ∧
    p.builder.buildRecord none = ⟨RecType.unknown, [], []⟩ ∧
    stepLine { p with checkRecType := false, foundType := false, buildKey := none }
        warcFieldIdentifiers.begin =
      ({ p with checkRecType := true, foundType := false, buildKey := none,
                crlfCount := 0, lastBegin := some warcFieldIdentifiers.begin },
       [Event.record ⟨RecType.unknown, [], []⟩]) := by
  obtain ⟨w, rso, ck, ft, st, pg, cc, bld, lb, bk⟩ := p
  simp only at hck hst
  subst hck; subst hst
  refine ⟨?_, rfl, ?_⟩
  · simp [stepLine, checkType, hb, he, h1, h2, h3, h4, h5]
  · simp [stepLine, WARCRecorderBuilder.buildRecord]

/-- Witness for C3: an awaiting-type parser fed a garbage type line. -/
theorem claim3_witness :
    stepLine awaitingParser "garbage" =
      ({ awaitingParser with checkRecType := false, foundType := false,
                             buildKey := none },
       ([] : List Event)) ∧
    awaitingParser.builder.buildRecord none = ⟨RecType.unknown, [], []⟩ ∧
    stepLine { awaitingParser with checkRecType := false, foundType := false,
                                   buildKey := none }
        warcFieldIdentifiers.begin =
      ({ awaitingParser with checkRecType := true, foundType := false,
                             buildKey := none, crlfCount := 0,
                             lastBegin := some warcFieldIdentifiers.begin },
       [Event.record ⟨RecType.unknown, [], []⟩]) :=
  claim3_unknown_type_degrades awaitingParser "garbage" (by decide) (by decide)
    (by decide) (by decide) (by decide) (by decide) (by decide) (by decide)
    (by decide)

/-- C4 counterexample: after a transport error the claim says the read
stream is destroyed and the parser leaves the parsing state, as at
end-of-stream; but the embedded error callback only forwards the
error, and on a freshly started session the parser is still parsing
with the stream open afterwards. -/
theorem claim4_counterexample :
    onError startedParser "boom" = (startedParser, [Event.error "boom"]) ∧
    startedParser.parsing = true ∧
    startedParser.readStreamOpen = true := by decide

/-- C4 amended: a transport error is forwarded verbatim as exactly one
error notification and the session state is untouched: the stream stays
open and the parser stays parsing; the teardown of the claim happens
only in the end-of-stream callback. -/
theorem claim4_error_only_forwarded (p : WARCParser) (e : String) :
    onError p e = (p, [Event.error e]) ∧
    countErrors (onError p e).2 = 1 ∧
    (onEnd p).1.parsing = false ∧
    (onEnd p).1.readStreamOpen = false := by
  refine ⟨rfl, ?_, rfl, rfl⟩
  simp [onError, countErrors]

/-- C5: the claim says start returns true when a session begins, but
the success branch of the source has no return statement, so both
start and parseWARC yield undefined when a new session begins, which
is not true. This evaluates the entry points at a fresh parser. -/
theorem claim5_start_returns_undefined :
    (start (mk0 (some "f.warc"))).1 = StartRet.undefinedRet ∧
    (parseWARC (some "f.warc") (mk0 none)).1 = StartRet.undefinedRet ∧
    StartRet.undefinedRet ≠ StartRet.trueRet := by decide

/-- C6: on a begin-sentinel line the parser resets the blank-line
counter, raises the type-check flag and records the begin line; the
very first begin sentinel of the session only clears the starting flag
and emits nothing, while every later begin sentinel emits the record
built from the current build key. -/
theorem claim6_begin_sentinel_step (p : WARCParser) :
    p.stepLine warcFieldIdentifiers.begin =
      (if p.starting then
        ({ p with starting := false, crlfCount := 0, checkRecType := true,
                  lastBegin := some warcFieldIdentifiers.begin },
         ([] : List Event))
       else
        ({ p with crlfCount := 0, checkRecType := true,
                  lastBegin := some warcFieldIdentifiers.begin },
         [Event.record (p.builder.buildRecord p.buildKey)])) := by
  cases hst : p.starting <;> simp [stepLine, hst]

/-- C7: starting with no configured path throws synchronously and
leaves the parser untouched, so no read resource is opened and no line
is processed; the same holds through parseWARC with no argument. -/
theorem claim7_missing_path_throws (p : WARCParser)
    (h1 : p.wp = none) (h2 : p.parsing = false) :
    start p = (StartRet.thrown "The path to the WARC file is undefined", p) ∧
    parseWARC none p = (StartRet.thrown "The path to the WARC file is undefined", p) := by
  obtain ⟨w, rso, ck, ft, st, pg, cc, bld, lb, bk⟩ := p
  simp only at h1 h2
  subst h1; subst h2
  constructor
  · simp [start]
  · simp [parseWARC, start]

/-- Witness for C7: a freshly constructed parser with no path. -/
theorem claim7_witness :
    start (mk0 none) =
      (StartRet.thrown "The path to the WARC file is undefined", mk0 none) ∧
    parseWARC none (mk0 none) =
      (StartRet.thrown "The path to the WARC file is undefined", mk0 none) :=
  claim7_missing_path_throws (mk0 none) rfl rfl

/-- C8: while a session is in progress, both entry points return false
and return the parser state unchanged in every field: path, stream,
counters, flags and builder buffers. -/
theorem claim8_busy_rejected_unchanged (p : WARCParser) (a : Option String)
    (h : p.parsing = true) :
    start p = (StartRet.falseRet, p) ∧
    parseWARC a p = (StartRet.falseRet, p) := by
  obtain ⟨w, rso, ck, ft, st, pg, cc, bld, lb, bk⟩ := p
  simp only at h
  subst h
  constructor
  · simp [start]
  · simp [parseWARC, start]

/-- Witness for C8: a parser that has just started a session rejects
start and parseWARC without any state change. -/
theorem claim8_witness :
    start startedParser = (StartRet.falseRet, startedParser) ∧
    parseWARC (some "other.warc") startedParser =
      (StartRet.falseRet, startedParser) :=
  claim8_busy_rejected_unchanged startedParser (some "other.warc") (by decide)

/-- C9: two independent sessions over the identical line sequence
observe identical event sequences, whatever paths the two parsers were
constructed with: the per-line processing is a deterministic function
of the line sequence and never consults the path. -/
theorem claim9_sessions_deterministic (wp1 wp2 : String) (lines : List String) :
    sessionRun wp1 lines = sessionRun wp2 lines := by
  unfold sessionRun
  dsimp only
  have h : (start (mk0 (some wp1))).2 =
      ((start (mk0 (some wp2))).2).setWp (some wp1) := rfl
  rw [h, runLines_wp]
  rfl

/-- C10 counterexample: the claim says that after a failed type match
the build key keeps the value it had from the previous record; but
after a first record whose key is some 0, a second record with a
garbage type line leaves the key at none, not some 0, because the
classification routine returns undefined and the assignment overwrites
the key. -/
theorem claim10_counterexample :
    (runLines startedParser
      [warcFieldIdentifiers.begin, warcFieldIdentifiers.req]).1.buildKey =
      some 0 ∧
    (runLines startedParser
      [warcFieldIdentifiers.begin, warcFieldIdentifiers.req,
       warcFieldIdentifiers.begin, "garbage"]).1.buildKey = none := by decide

/-- C10 amended: at most one line per record is tested against the
type sentinels, since the first non-empty line after a begin sentinel
clears the type-check flag whether or not a sentinel matched; when
none matched, the build key is overwritten with none, and every
subsequent non-sentinel line is routed to addLineTo under the none
key, which leaves the builder unchanged. -/
theorem claim10_key_overwritten_none (p : WARCParser) (line l2 : String)
    (hck : p.checkRecType = true)
    (hb : warcFieldIdentifiers.begin ≠ line)
    (he : warcFieldIdentifiers.empty ≠ line)
    (h1 : warcFieldIdentifiers.req ≠ line)
    (h2 : warcFieldIdentifiers.res ≠ line)
    (h3 : warcFieldIdentifiers.revisit ≠ line)
    (h4 : warcFieldIdentifiers.info ≠ line)
    (h5 : warcFieldIdentifiers.mdata ≠ line)
    (hb2 : warcFieldIdentifiers.begin ≠ l2)
    (he2 : warcFieldIdentifiers.empty ≠ l2) :
    (p.stepLine line).1.checkRecType = false ∧
    (p.stepLine line).1.buildKey = none ∧
    (p.stepLine line).2 = [] ∧
    (p.stepLine line).1.builder.addLineTo none (p.stepLine line).1.crlfCount l2 =
      (p.stepLine line).1.builder ∧
    (p.stepLine line).1.stepLine l2 = ((p.stepLine line).1, ([] : List Event)) := by
  obtain ⟨w, rso, ck, ft, st, pg, cc, bld, lb, bk⟩ := p
  simp only at hck
  subst hck
  have hstep : stepLine ⟨w, rso, true, ft, st, pg, cc, bld, lb, bk⟩ line =
      (⟨w, rso, false, false, st, pg, cc, bld, lb, none⟩, []) := by
    simp [stepLine, checkType, hb, he, h1, h2, h3, h4, h5]
  rw [hstep]
  refine ⟨rfl, rfl, rfl, rfl, ?_⟩
  simp [stepLine, hb2, he2, WARCRecorderBuilder.addLineTo]

/-- Witness for C10 amended: an awaiting-type parser fed a garbage
type line and then an ordinary content line. -/
theorem claim10_witness :
    (stepLine awaitingParser "garbage").1.checkRecType = false ∧
    (stepLine awaitingParser "garbage").1.buildKey = none ∧
    (stepLine awaitingParser "garbage").2 = [] ∧
    (stepLine awaitingParser "garbage").1.builder.addLineTo none
        (stepLine awaitingParser "garbage").1.crlfCount "X: y" =
      (stepLine awaitingParser "garbage").1.builder ∧
    (stepLine awaitingParser "garbage").1.stepLine "X: y" =
      ((stepLine awaitingParser "garbage").1, ([] : List Event)) :=
  claim10_key_overwritten_none awaitingParser "garbage" "X: y" (by decide)
    (by decide) (by decide) (by decide) (by decide) (by decide) (by decide)
    (by decide) (by decide) (by decide)

end NodeWarc
